import Mathlib

set_option maxRecDepth 4000

/-!
Shallow embedding of the browser-py HTTP client, file src/src/url.py.

Modelling conventions:
- Python strings are lists of characters; byte strings are lists of
  natural numbers below 256.
- The response transport, a buffered binary reader over the socket, is a
  list of read events: a data chunk, or a timeout raised by a blocking
  read.  A read of n bytes takes at most n bytes from the head chunk; an
  exhausted event list behaves like a peer that closed the connection, so
  reads return the empty byte string.
- Python exceptions become explicit error values.
- The gzip.decompress library call is represented by an oracle function
  from the payload bytes to one of three outcomes: success, a failure
  raised as gzip.BadGzipFile, or any other decompression failure (CPython
  raises zlib.error for corrupt deflate data and EOFError for a truncated
  stream, neither of which is a BadGzipFile).
- The server side of a session is a script: the list of responses the
  transport will deliver, each already split into a status code string,
  parsed headers (lower-cased keys with stripped values, as produced by
  the header parser in the source) and the byte stream for the body.
-/

/-- Model of the Python expression s.split(sep, 1) restricted to the case
where sep occurs in s: the text before the first occurrence of sep paired
with the text after it, and none when sep does not occur.  Every separator
used by the source is non-empty. -/
def splitOnce (sep : List Char) : List Char → Option (List Char × List Char)
  | [] => none
  | c :: rest =>
    if sep.isPrefixOf (c :: rest) then some ([], (c :: rest).drop sep.length)
    else
      match splitOnce sep rest with
      | some (l, r) => some (c :: l, r)
      | none => none

/-- Lookup in a Python dict modelled as an association list with distinct
keys: the value stored under the first matching key. -/
def assocGet (m : List (List Char × List Char)) (k : List Char) : Option (List Char) :=
  match m with
  | [] => none
  | (k', v) :: rest => if k' = k then some v else assocGet rest k

/-- Store into a Python dict modelled as an association list: replace the
binding of an existing key, otherwise append a new binding. -/
def assocPut (m : List (List Char × List Char)) (k v : List Char) :
    List (List Char × List Char) :=
  match m with
  | [] => [(k, v)]
  | (k', v') :: rest => if k' = k then (k, v) :: rest else (k', v') :: assocPut rest k v

/-- ASCII whitespace bytes stripped by the Python bytes.strip method. -/
def isPySpace (b : Nat) : Bool :=
  b == 32 || b == 9 || b == 10 || b == 13 || b == 11 || b == 12

/-- Model of bytes.strip with no argument: drop ASCII whitespace from both
ends. -/
def stripBytes (s : List Nat) : List Nat :=
  ((s.dropWhile isPySpace).reverse.dropWhile isPySpace).reverse

/-- Value of one hexadecimal digit byte, none for a non-digit. -/
def hexVal (b : Nat) : Option Nat :=
  if 48 ≤ b ∧ b ≤ 57 then some (b - 48)
  else if 97 ≤ b ∧ b ≤ 102 then some (b - 87)
  else if 65 ≤ b ∧ b ≤ 70 then some (b - 55)
  else none

/-- Accumulate hexadecimal digit bytes; none on the empty list or on a
non-digit. -/
def hexFold (acc : Nat) : List Nat → Option Nat
  | [] => some acc
  | b :: rest =>
    match hexVal b with
    | some v => hexFold (16 * acc + v) rest
    | none => none

/-- Model of the Python call int(x, 16) on an already stripped byte
string: an optional 0x or 0X marker followed by at least one hexadecimal
digit.  The signed and underscore-separated forms accepted by Python are
not produced by any HTTP peer modelled here and are left out. -/
def pyIntHex (s : List Nat) : Option Nat :=
  match s with
  | [] => none
  | 48 :: 120 :: rest => if rest = [] then none else hexFold 0 rest
  | 48 :: 88 :: rest => if rest = [] then none else hexFold 0 rest
  | _ => hexFold 0 s

/-- Value of one decimal digit character, none otherwise. -/
def decVal (c : Char) : Option Nat :=
  if 48 ≤ c.toNat ∧ c.toNat ≤ 57 then some (c.toNat - 48) else none

/-- Accumulate decimal digit characters; none on a non-digit. -/
def decFold (acc : Nat) : List Char → Option Nat
  | [] => some acc
  | c :: rest =>
    match decVal c with
    | some v => decFold (10 * acc + v) rest
    | none => none

/-- Model of the Python call int(x) on an already stripped string: at
least one decimal digit.  Signed forms are not produced by the inputs
modelled here and are left out. -/
def pyIntDec (s : List Char) : Option Nat :=
  match s with
  | [] => none
  | _ => decFold 0 s

/-- Bytes of an ASCII string, used to script wire data. -/
def strBytes (s : String) : List Nat :=
  s.toList.map Char.toNat

/-- Unicode replacement character emitted for undecodable byte
sequences. -/
def replacementChar : Char := Char.ofNat 0xFFFD

/-- Model of the Python call bytes.decode with encoding utf8 and errors
replace: standard UTF-8 decoding where every maximal invalid prefix
becomes one replacement character and decoding continues at the next
byte. -/
def utf8Decode : List Nat → List Char
  | [] => []
  | b :: rest =>
    if b < 0x80 then Char.ofNat b :: utf8Decode rest
    else if 0xC2 ≤ b ∧ b ≤ 0xDF then
      match rest with
      | [] => [replacementChar]
      | b2 :: rest2 =>
        if 0x80 ≤ b2 ∧ b2 ≤ 0xBF then
          Char.ofNat ((b - 0xC0) * 64 + (b2 - 0x80)) :: utf8Decode rest2
        else replacementChar :: utf8Decode (b2 :: rest2)
    else if 0xE0 ≤ b ∧ b ≤ 0xEF then
      match rest with
      | [] => [replacementChar]
      | b2 :: rest2 =>
        if (0x80 ≤ b2 ∧ b2 ≤ 0xBF)
            ∧ (b = 0xE0 → 0xA0 ≤ b2) ∧ (b = 0xED → b2 ≤ 0x9F) then
          match rest2 with
          | [] => [replacementChar]
          | b3 :: rest3 =>
            if 0x80 ≤ b3 ∧ b3 ≤ 0xBF then
              Char.ofNat ((b - 0xE0) * 4096 + (b2 - 0x80) * 64 + (b3 - 0x80))
                :: utf8Decode rest3
            else replacementChar :: utf8Decode (b3 :: rest3)
        else replacementChar :: utf8Decode (b2 :: rest2)
    else if 0xF0 ≤ b ∧ b ≤ 0xF4 then
      match rest with
      | [] => [replacementChar]
      | b2 :: rest2 =>
        if (0x80 ≤ b2 ∧ b2 ≤ 0xBF)
            ∧ (b = 0xF0 → 0x90 ≤ b2) ∧ (b = 0xF4 → b2 ≤ 0x8F) then
          match rest2 with
          | [] => [replacementChar]
          | b3 :: rest3 =>
            if 0x80 ≤ b3 ∧ b3 ≤ 0xBF then
              match rest3 with
              | [] => [replacementChar]
              | b4 :: rest4 =>
                if 0x80 ≤ b4 ∧ b4 ≤ 0xBF then
                  Char.ofNat ((b - 0xF0) * 262144 + (b2 - 0x80) * 4096
                      + (b3 - 0x80) * 64 + (b4 - 0x80)) :: utf8Decode rest4
                else replacementChar :: utf8Decode (b4 :: rest4)
            else replacementChar :: utf8Decode (b3 :: rest3)
        else replacementChar :: utf8Decode (b2 :: rest2)
    else replacementChar :: utf8Decode rest

/-- Exceptions raised by the client, one constructor per distinct raise
site or escaping library exception. -/
inductive Err
  /-- ValueError for a URL with neither a scheme separator nor a comma. -/
  | invalidURL
  /-- AssertionError for a scheme outside the supported list. -/
  | unsupportedScheme
  /-- ValueError raised by an int conversion on non-numeric text. -/
  | valueError
  /-- ValueError for a redirect response without a usable Location. -/
  | missingLocation
  /-- ValueError for a redirect chain that exceeds the hop bound. -/
  | tooManyRedirects
  /-- ValueError for a status class that is neither 2xx nor 3xx. -/
  | unexpectedStatus
  /-- ConnectionError for a resend that fails after the one reconnect. -/
  | connectionError
  /-- The socket timeout exception escaping outside the fixed-length read
  loop, which is the only place that catches it. -/
  | socketTimeout
  /-- An exception from gzip decompression other than BadGzipFile. -/
  | gzipFailure
  /-- Model artifact: the scripted session ran out of fuel or responses;
  unreachable when the script covers the run. -/
  | outOfFuel
deriving DecidableEq

/-- State of one URL object from the source: the fields assigned in the
constructor, with the socket handle left to the separate send model and
the cache as an association list. -/
structure URLState where
  scheme : List Char
  host : List Char
  port : Nat
  path : List Char
  data : List Char
  redirect_counts : Nat
  cache : List (List Char × List Char)
deriving DecidableEq

/-- Shared host and path splitting of the constructor and the redirect
handler: append a slash to a slash-less remainder, then split at the
first slash into the host segment and the path remainder. -/
def hostPathSplit (rest : List Char) : List Char × List Char :=
  match splitOnce ['/'] rest with
  | none => (rest, [])
  | some p => p

/-- Model of the URL constructor, lines 16 to 67 of src/src/url.py: split
the scheme at the first scheme separator, else at the first comma; check
the scheme against the supported list; default the port for the network
schemes; for http and https append a slash to a slash-less remainder,
split host from path at the first slash, prefix the path with a slash,
and split an explicit port off the host at the first colon; for file keep
the remainder as path; for the inline data scheme keep the remainder as
payload. -/
def url_init (url : List Char) : Except Err URLState :=
  match
    (match splitOnce ("://".toList) url with
     | some p => some p
     | none => splitOnce [','] url)
  with
  | none => .error .invalidURL
  | some (scheme, rest) =>
    if scheme = "http".toList ∨ scheme = "https".toList ∨ scheme = "file".toList
        ∨ scheme = "data:text/html".toList then
      if scheme = "http".toList ∨ scheme = "https".toList then
        match splitOnce [':'] (hostPathSplit rest).1 with
        | some (h, p) =>
          match pyIntDec p with
          | some pn => .ok ⟨scheme, h, pn, '/' :: (hostPathSplit rest).2, [], 0, []⟩
          | none => .error .valueError
        | none => .ok ⟨scheme, (hostPathSplit rest).1,
            (if scheme = "http".toList then 80 else 443),
            '/' :: (hostPathSplit rest).2, [], 0, []⟩
      else if scheme = "file".toList then
        .ok ⟨scheme, [], 0, rest, [], 0, []⟩
      else
        .ok ⟨scheme, [], 0, [], rest, 0, []⟩
    else .error .unsupportedScheme

/-- One event on the response transport: a chunk of bytes made available
by the peer, or a timeout raised by a blocking read. -/
inductive ReadEv
  | chunk (bs : List Nat)
  | timeout
deriving DecidableEq

/-- Result of one read call: the returned bytes, or a raised socket
timeout. -/
inductive ReadRes
  | got (bs : List Nat)
  | timedOut
deriving DecidableEq

/-- Model of response.read n on the event list: an exhausted list, like a
closed peer, returns the empty byte string; a timeout event raises; a
data chunk yields at most n bytes, pushing any excess back. -/
def evRead (n : Nat) : List ReadEv → ReadRes × List ReadEv
  | [] => (.got [], [])
  | .timeout :: rest => (.timedOut, rest)
  | .chunk bs :: rest =>
    if bs.length ≤ n then (.got bs, rest)
    else (.got (bs.take n), .chunk (bs.drop n) :: rest)

/-- Split a byte list at the first CRLF pair: the bytes through the CRLF
and the bytes after it. -/
def findCRLF : List Nat → Option (List Nat × List Nat)
  | [] => none
  | 13 :: 10 :: rest => some ([13, 10], rest)
  | b :: rest =>
    match findCRLF rest with
    | some (l, r) => some (b :: l, r)
    | none => none

/-- Model of response.readline on the event list, with the CRLF newline
configured by makefile in the source: return the bytes through the first
CRLF; at end of data return whatever bytes remain on the current line; a
timeout event raises. -/
def evReadline : List ReadEv → ReadRes × List ReadEv
  | [] => (.got [], [])
  | .timeout :: rest => (.timedOut, rest)
  | .chunk bs :: rest =>
    match findCRLF bs with
    | some (l, after) => (.got l, if after = [] then rest else .chunk after :: rest)
    | none =>
      match evReadline rest with
      | (.got l2, rest2) => (.got (bs ++ l2), rest2)
      | (.timedOut, rest2) => (.timedOut, rest2)

/-- Model of the fixed-length read loop, lines 144 to 157 of
src/src/url.py: while fewer than the wanted number of bytes have been
collected, read the remainder; an empty read, meaning a closed peer,
breaks with a logged warning, and so does a raised timeout; the bytes
collected so far are kept either way. -/
def readFixed (need : Nat) : List ReadEv → List Nat → List Nat × List ReadEv
  | s, acc =>
    if need ≤ acc.length then (acc, s)
    else
      match s with
      | [] => (acc, [])
      | .timeout :: rest => (acc, rest)
      | .chunk bs :: rest =>
        if bs.length = 0 then (acc, rest)
        else if bs.length ≤ need - acc.length then readFixed need rest (acc ++ bs)
        else (acc ++ bs.take (need - acc.length), .chunk (bs.drop (need - acc.length)) :: rest)

/-- Fuel bound for the chunked-body loop: one more than the total byte
and event count of the stream; every loop iteration that recurses has
consumed at least one byte of a non-empty size line, so this bound is
never reached on the streams scripted here. -/
def evLen : List ReadEv → Nat
  | [] => 1
  | .chunk bs :: r => bs.length + 1 + evLen r
  | .timeout :: r => 1 + evLen r

/-- Model of the _parse_chunked_body method, lines 200 to 210 of
src/src/url.py: read a size line, strip it and parse it as hexadecimal
with int raising ValueError on failure; on size zero consume one more
line and stop; otherwise read that many bytes, consume the line
terminator and loop.  A timeout raised by any of these reads propagates,
since nothing in the method catches it. -/
def parse_chunked_body (fuel : Nat) (s : List ReadEv) (acc : List Nat) :
    Except Err (List Nat × List ReadEv) :=
  match fuel with
  | 0 => .error .outOfFuel
  | fuel + 1 =>
    match evReadline s with
    | (.timedOut, _) => .error .socketTimeout
    | (.got line, s1) =>
      match pyIntHex (stripBytes line) with
      | none => .error .valueError
      | some 0 =>
        match evReadline s1 with
        | (.timedOut, _) => .error .socketTimeout
        | (.got _, s2) => .ok (acc, s2)
      | some (n + 1) =>
        match evRead (n + 1) s1 with
        | (.timedOut, _) => .error .socketTimeout
        | (.got bs, s2) =>
          match evReadline s2 with
          | (.timedOut, _) => .error .socketTimeout
          | (.got _, s3) => parse_chunked_body fuel s3 (acc ++ bs)

/-- Outcome of the gzip.decompress library call on a payload. -/
inductive GzipResult
  /-- Successful decompression to the given bytes. -/
  | ok (out : List Nat)
  /-- The gzip.BadGzipFile exception, the only one the source catches. -/
  | badGzipFile
  /-- Any other exception, such as zlib.error on corrupt deflate data or
  EOFError on a truncated stream. -/
  | otherFailure
deriving DecidableEq

/-- Model of the _read_response_body method, lines 122 to 178 of
src/src/url.py, parametrised by the gzip decompression oracle: a cache
hit returns the stored text at once, reading nothing; otherwise the body
is framed by the chunked parser when the transfer-encoding header equals
chunked, else by the fixed-length loop over the content length; a gzip
content-encoding applies the decompression oracle, keeping the raw bytes
on a BadGzipFile and propagating any other failure; the bytes are decoded
leniently to text; the text is cached when the cache-control value,
defaulted to the empty string, is neither no-store nor empty.  The
returned triple is the body text, the state after any cache write, and
the unconsumed transport events. -/
def read_response_body (gz : List Nat → GzipResult) (st : URLState)
    (stream : List ReadEv) (hs : List (List Char × List Char))
    (content_length : Nat) : Except Err (List Char × URLState × List ReadEv) :=
  match assocGet st.cache (st.scheme ++ st.host ++ st.path) with
  | some cached => .ok (cached, st, stream)
  | none =>
    match
      (if assocGet hs ("transfer-encoding".toList) = some ("chunked".toList) then
        parse_chunked_body (evLen stream) stream []
      else
        .ok (readFixed content_length stream []))
    with
    | .error e => .error e
    | .ok (body0, stream1) =>
      match
        (if assocGet hs ("content-encoding".toList) = some ("gzip".toList) then
          match gz body0 with
          | .ok out => .ok out
          | .badGzipFile => .ok body0
          | .otherFailure => .error .gzipFailure
        else .ok body0 : Except Err (List Nat))
      with
      | .error e => .error e
      | .ok body1 =>
        .ok (utf8Decode body1,
          (if (assocGet hs ("cache-control".toList)).getD [] ≠ "no-store".toList
              ∧ (assocGet hs ("cache-control".toList)).getD [] ≠ [] then
            { st with cache := assocPut st.cache (st.scheme ++ st.host ++ st.path)
                               (utf8Decode body1) }
          else st),
          stream1)

/-- Model of the state effect of the _handle_redirect method, lines 180
to 196 of src/src/url.py, up to but not including the recursive request:
a missing or empty Location raises before any mutation; an absolute
Location overwrites scheme, host and path by the same splitting as the
constructor, while any other Location overwrites the path verbatim; then
the hop counter is incremented and the method raises when it exceeds
five.  The pair returned is the mutated state and the raised exception,
if any, since the Python object keeps its mutations when the raise
happens. -/
def handle_redirect_state (st : URLState) (hs : List (List Char × List Char)) :
    URLState × Option Err :=
  match assocGet hs ("location".toList) with
  | none => (st, some .missingLocation)
  | some loc =>
    if loc = [] then (st, some .missingLocation)
    else
      let st1 :=
        match splitOnce ("://".toList) loc with
        | some (scheme, rest) =>
          { st with scheme := scheme, host := (hostPathSplit rest).1,
                    path := '/' :: (hostPathSplit rest).2 }
        | none => { st with path := loc }
      let st2 := { st1 with redirect_counts := st1.redirect_counts + 1 }
      if st2.redirect_counts > 5 then (st2, some .tooManyRedirects)
      else (st2, none)

/-- One scripted response of a session: the status code string from the
status line, the parsed headers and the transport events carrying the
body. -/
structure ScriptedResponse where
  status : List Char
  headers : List (List Char × List Char)
  stream : List ReadEv
deriving DecidableEq

/-- Model of the request_url method, lines 212 to 234 of src/src/url.py,
run against a script of responses: a 2xx status parses the content-length
header with int, defaulting to zero when absent, and decodes the body; a
3xx status applies the redirect mutation and, when it does not raise,
recurses into the next scripted response; any other status raises.  The
returned pair is the final state of the URL object and the returned body
or raised exception, since the object keeps its mutations when a raise
happens. -/
def request_url (gz : List Nat → GzipResult) :
    List ScriptedResponse → URLState → URLState × Except Err (List Char)
  | [], st => (st, .error .outOfFuel)
  | resp :: rest, st =>
    if resp.status.head? = some '2' then
      match
        (match assocGet resp.headers ("content-length".toList) with
         | some v => pyIntDec v
         | none => some 0)
      with
      | none => (st, .error .valueError)
      | some n =>
        match read_response_body gz st resp.stream resp.headers n with
        | .ok (body, st', _) => (st', .ok body)
        | .error e => (st, .error e)
    else if resp.status.head? = some '3' then
      match handle_redirect_state st resp.headers with
      | (st', none) => request_url gz rest st'
      | (st', some e) => (st', .error e)
    else (st, .error .unexpectedStatus)

/-- Outcome of one low-level socket send call. -/
inductive SendOutcome
  /-- The write succeeded. -/
  | ok
  /-- The write raised BrokenPipeError. -/
  | brokenPipe
  /-- The write raised ConnectionResetError. -/
  | connectionReset
deriving DecidableEq

/-- Model of the _send_request method, lines 79 to 86 of src/src/url.py:
the oracle gives the outcome of each physical send in order and i indexes
the next one.  A first send that raises a broken or reset connection
error triggers one socket recreation and one retry; a retry failure
propagates, and both of those exception classes are subclasses of the
Python ConnectionError.  The result is the number of reconnects
performed, paired with the next send index or the propagated error. -/
def send_request (sends : Nat → SendOutcome) (i : Nat) : Nat × Except Err Nat :=
  match sends i with
  | .ok => (0, .ok (i + 1))
  | _ =>
    match sends (i + 1) with
    | .ok => (1, .ok (i + 2))
    | _ => (1, .error .connectionError)

/-- State produced by the constructor for the URL http://example.com/ and
used as the starting point of the scripted sessions. -/
def exampleState : URLState :=
  ⟨"http".toList, "example.com".toList, 80, "/".toList, [], 0, []⟩

/-- Gzip oracle for sessions whose responses carry no content-encoding
header; its value is never consulted there. -/
def gzUnused : List Nat → GzipResult := fun _ => .badGzipFile

/-- Scripted 3xx response redirecting to the given location. -/
def redirectResponse (loc : String) : ScriptedResponse :=
  ⟨"301".toList, [("location".toList, loc.toList)], []⟩

/-- Scripted 2xx response with content length five and body hello. -/
def okResponse : ScriptedResponse :=
  ⟨"200".toList, [("content-length".toList, "5".toList)], [.chunk (strBytes "hello")]⟩

/-- Session consisting of n redirects to the path /r followed by one
successful response. -/
def chainScript (n : Nat) : List ScriptedResponse :=
  List.replicate n (redirectResponse "/r") ++ [okResponse]

/-- Redirect step on a non-empty relative Location: only the path is
overwritten, then the hop counter is incremented and checked. -/
theorem hrs_relative (st : URLState) (hs : List (List Char × List Char)) (loc : List Char)
    (hloc : assocGet hs ("location".toList) = some loc) (hne : loc ≠ [])
    (habs : splitOnce ("://".toList) loc = none) :
    handle_redirect_state st hs =
      ({ st with path := loc, redirect_counts := st.redirect_counts + 1 },
       if st.redirect_counts + 1 > 5 then some .tooManyRedirects else none) := by
  unfold handle_redirect_state
  rw [hloc]
  simp only [if_neg hne, habs]
  split <;> rfl

/-- Redirect step on a non-empty absolute Location: scheme, host and path
are overwritten, then the hop counter is incremented and checked. -/
theorem hrs_absolute (st : URLState) (hs : List (List Char × List Char)) (loc sch rest : List Char)
    (hloc : assocGet hs ("location".toList) = some loc) (hne : loc ≠ [])
    (habs : splitOnce ("://".toList) loc = some (sch, rest)) :
    handle_redirect_state st hs =
      ({ st with scheme := sch, host := (hostPathSplit rest).1,
                 path := '/' :: (hostPathSplit rest).2,
                 redirect_counts := st.redirect_counts + 1 },
       if st.redirect_counts + 1 > 5 then some .tooManyRedirects else none) := by
  unfold handle_redirect_state
  rw [hloc]
  simp only [if_neg hne, habs]
  split <;> rfl

/-- Body decoding touches no field of the state other than the cache. -/
theorem rrb_fields (gz : List Nat → GzipResult) (st : URLState) (stream : List ReadEv)
    (hs : List (List Char × List Char)) (n : Nat) (body : List Char) (st' : URLState)
    (s' : List ReadEv)
    (h : read_response_body gz st stream hs n = .ok (body, st', s')) :
    st'.scheme = st.scheme ∧ st'.host = st.host ∧ st'.port = st.port
    ∧ st'.path = st.path ∧ st'.data = st.data
    ∧ st'.redirect_counts = st.redirect_counts := by
  unfold read_response_body at h
  split at h
  · simp only [Except.ok.injEq, Prod.mk.injEq] at h
    obtain ⟨-, h2, -⟩ := h
    subst h2
    exact ⟨rfl, rfl, rfl, rfl, rfl, rfl⟩
  · split at h
    · exact absurd h (by simp)
    · split at h
      · exact absurd h (by simp)
      · simp only [Except.ok.injEq, Prod.mk.injEq] at h
        obtain ⟨-, h2, -⟩ := h
        subst h2
        split
        · exact ⟨rfl, rfl, rfl, rfl, rfl, rfl⟩
        · exact ⟨rfl, rfl, rfl, rfl, rfl, rfl⟩

/-- Constructor invariant: every accepted http or https URL gets a
non-empty path starting with a slash. -/
theorem url_init_path_slash (url : List Char) (st : URLState) (h : url_init url = .ok st)
    (hnet : st.scheme = "http".toList ∨ st.scheme = "https".toList) :
    st.path.head? = some '/' := by
  unfold url_init at h
  split at h
  · exact absurd h (by simp)
  · split at h
    · split at h
      · split at h
        · split at h
          · injection h with h'
            subst h'
            rfl
          · exact absurd h (by simp)
        · injection h with h'
          subst h'
          rfl
      · split at h
        · injection h with h'
          subst h'
          next hnot _ => exact absurd hnet hnot
        · injection h with h'
          subst h'
          next hnot _ => exact absurd hnet hnot
    · exact absurd h (by simp)

/-- C1: starting from a state whose hop count is zero, a scripted
redirect chain of length at most five runs to completion and returns the
final body, while the chain of length six raises TooManyRedirects; and
the redirect step increments the hop counter, raising TooManyRedirects
exactly when the incremented counter exceeds five. -/
theorem c1_redirect_bound :
    (∀ n, n ≤ 5 →
      (request_url gzUnused (chainScript n) exampleState).2 = .ok ("hello".toList))
    ∧ (request_url gzUnused (chainScript 6) exampleState).2 = .error .tooManyRedirects
    ∧ (∀ st hs loc, assocGet hs ("location".toList) = some loc → loc ≠ [] →
        (handle_redirect_state st hs).1.redirect_counts = st.redirect_counts + 1
        ∧ ((handle_redirect_state st hs).2 = some .tooManyRedirects ↔
            st.redirect_counts + 1 > 5)) := by
  refine ⟨?_, by rfl, ?_⟩
  · intro n hn
    interval_cases n <;> rfl
  · intro st hs loc hloc hne
    cases habs : splitOnce ("://".toList) loc with
    | none =>
      rw [hrs_relative st hs loc hloc hne habs]
      refine ⟨rfl, ?_, fun h => by rw [if_pos h]⟩
      intro h
      by_contra hle
      rw [if_neg hle] at h
      exact Option.noConfusion h
    | some p =>
      rw [hrs_absolute st hs loc p.1 p.2 hloc hne (by rw [habs])]
      refine ⟨rfl, ?_, fun h => by rw [if_pos h]⟩
      intro h
      by_contra hle
      rw [if_neg hle] at h
      exact Option.noConfusion h

/-- Witness for C1 at chain length three and a concrete redirect step. -/
theorem c1_witness :
    (3 ≤ 5 ∧ (request_url gzUnused (chainScript 3) exampleState).2 = .ok ("hello".toList))
    ∧ (handle_redirect_state exampleState [("location".toList, "/r".toList)]).1.redirect_counts
        = exampleState.redirect_counts + 1 :=
  ⟨⟨by decide, c1_redirect_bound.1 3 (by decide)⟩,
   (c1_redirect_bound.2.2 exampleState [("location".toList, "/r".toList)]
     ("/r".toList) (by rfl) (by decide)).1⟩

/-- C2 counterexample: a redirect whose Location is relative and does not
start with a slash is copied into the path verbatim, so a state whose
path started with a slash loses that property; the path-starts-with-slash
invariant is not preserved by redirect handling. -/
theorem c2_counterexample :
    exampleState.scheme = "http".toList
    ∧ exampleState.path.head? = some '/'
    ∧ (handle_redirect_state exampleState
        [("location".toList, "foo.html".toList)]).1.path.head? ≠ some '/' := by
  refine ⟨rfl, rfl, ?_⟩
  decide

/-- C2 amended: the constructor establishes the slash-path property for
network schemes, an absolute-Location redirect re-establishes it, body
decoding never changes the path, but a relative-Location redirect copies
the Location into the path verbatim, so it preserves the property only
when the Location itself starts with a slash. -/
theorem c2_path_slash_amended :
    (∀ url st, url_init url = .ok st →
      (st.scheme = "http".toList ∨ st.scheme = "https".toList) →
      st.path.head? = some '/')
    ∧ (∀ st hs loc sch rest, assocGet hs ("location".toList) = some loc → loc ≠ [] →
        splitOnce ("://".toList) loc = some (sch, rest) →
        (handle_redirect_state st hs).1.path.head? = some '/')
    ∧ (∀ st hs loc, assocGet hs ("location".toList) = some loc → loc ≠ [] →
        splitOnce ("://".toList) loc = none →
        (handle_redirect_state st hs).1.path = loc)
    ∧ (∀ gz st stream hs n body st' s',
        read_response_body gz st stream hs n = .ok (body, st', s') →
        st'.path = st.path) := by
  refine ⟨url_init_path_slash, ?_, ?_, ?_⟩
  · intro st hs loc sch rest hloc hne habs
    rw [hrs_absolute st hs loc sch rest hloc hne habs]
    rfl
  · intro st hs loc hloc hne habs
    rw [hrs_relative st hs loc hloc hne habs]
  · intro gz st stream hs n body st' s' h
    exact (rrb_fields gz st stream hs n body st' s' h).2.2.2.1

/-- Witness for C2 amended: the constructor invariant at a concrete URL
and the relative-redirect behaviour at a concrete Location. -/
theorem c2_witness :
    exampleState.path.head? = some '/'
    ∧ (handle_redirect_state exampleState
        [("location".toList, "foo.html".toList)]).1.path = "foo.html".toList :=
  ⟨c2_path_slash_amended.1 ("http://example.com".toList) exampleState (by rfl) (Or.inl rfl),
   c2_path_slash_amended.2.2.1 exampleState [("location".toList, "foo.html".toList)]
     ("foo.html".toList) (by rfl) (by decide) (by rfl)⟩

/-- Scripted 2xx response framed by a content length of eleven with body
hello world. -/
def fixedResponse : ScriptedResponse :=
  ⟨"200".toList, [("content-length".toList, "11".toList)],
   [.chunk (strBytes "hello world")]⟩

/-- Scripted 2xx response framed by chunked transfer encoding carrying
hello in a chunk of size five and then world with its leading space in a
chunk of size six, closed by a zero size line. -/
def chunkedResponse : ScriptedResponse :=
  ⟨"200".toList, [("transfer-encoding".toList, "chunked".toList)],
   [.chunk (strBytes "5\r\nhello\r\n6\r\n world\r\n0\r\n\r\n")]⟩

/-- C3: the fixed-length framing with content length eleven and the
chunked framing of the same payload both decode to exactly the text
hello world. -/
theorem c3_framings_agree :
    (request_url gzUnused [fixedResponse] exampleState).2 = .ok ("hello world".toList)
    ∧ (request_url gzUnused [chunkedResponse] exampleState).2 = .ok ("hello world".toList) :=
  ⟨rfl, rfl⟩

/-- Looking up a key right after storing it finds the stored value. -/
theorem assocGet_put_self (m : List (List Char × List Char)) (k v : List Char) :
    assocGet (assocPut m k v) k = some v := by
  induction m with
  | nil => simp [assocPut, assocGet]
  | cons kv rest ih =>
    obtain ⟨k', v'⟩ := kv
    by_cases hk : k' = k
    · simp [assocPut, assocGet, hk]
    · simp [assocPut, assocGet, hk, ih]

/-- Header block whose cache-control header is present with an empty
value, as produced by the header parser from a bare cache-control line. -/
def emptyCacheControlHeaders : List (List Char × List Char) :=
  [("content-length".toList, "2".toList), ("cache-control".toList, [])]

/-- State whose cache already holds the text hi under the key of the
example URL. -/
def cachedState : URLState :=
  { exampleState with cache := [("httpexample.com/".toList, "hi".toList)] }

/-- Header block carrying a max-age cache-control value. -/
def maxAgeHeaders : List (List Char × List Char) :=
  [("cache-control".toList, "max-age=60".toList)]

/-- C4 counterexample: a Cache-Control header that is present with an
empty value is present and differs from no-store, yet a successful 2xx
decode leaves the cache empty, because the code folds the empty value
into the absent case. -/
theorem c4_counterexample :
    assocGet emptyCacheControlHeaders ("cache-control".toList) = some []
    ∧ some ([] : List Char) ≠ some ("no-store".toList)
    ∧ read_response_body gzUnused exampleState [.chunk (strBytes "hi")]
        emptyCacheControlHeaders 2
      = .ok ("hi".toList, exampleState, [])
    ∧ exampleState.cache = [] :=
  ⟨by rfl, by decide, by rfl, rfl⟩

/-- C4 amended: on a cache miss a successful decode stores the body under
the key exactly when the cache-control value, taken as empty when the
header is absent, is neither no-store nor empty; and on a cache hit the
stored text is returned at once with the state unchanged and the
transport untouched. -/
theorem c4_cache_policy_amended :
    (∀ gz st stream hs n body st' s',
      assocGet st.cache (st.scheme ++ st.host ++ st.path) = none →
      read_response_body gz st stream hs n = .ok (body, st', s') →
      (assocGet st'.cache (st.scheme ++ st.host ++ st.path) = some body ↔
        ((assocGet hs ("cache-control".toList)).getD [] ≠ "no-store".toList
         ∧ (assocGet hs ("cache-control".toList)).getD [] ≠ [])))
    ∧ (∀ gz st stream hs n cached,
      assocGet st.cache (st.scheme ++ st.host ++ st.path) = some cached →
      read_response_body gz st stream hs n = .ok (cached, st, stream)) := by
  constructor
  · intro gz st stream hs n body st' s' hc h
    unfold read_response_body at h
    rw [hc] at h
    split at h
    · next cached heq => exact Option.noConfusion heq
    · split at h
      · exact absurd h (by simp)
      · split at h
        · exact absurd h (by simp)
        · simp only [Except.ok.injEq, Prod.mk.injEq] at h
          obtain ⟨h1, h2, -⟩ := h
          subst h1
          subst h2
          split
          · next hcond => exact iff_of_true (assocGet_put_self _ _ _) hcond
          · next hcond =>
              exact iff_of_false
                (fun hcon => by rw [hc] at hcon; exact Option.noConfusion hcon) hcond
  · intro gz st stream hs n cached hc
    unfold read_response_body
    rw [hc]

/-- Witness for C4 amended: a cache hit served from a state with a filled
cache while a timeout event sits unread on the transport, and the
populate condition evaluated after a concrete max-age response. -/
theorem c4_witness :
    read_response_body gzUnused cachedState [.timeout] [] 0
      = .ok ("hi".toList, cachedState, [.timeout])
    ∧ (assocGet cachedState.cache ("httpexample.com/".toList) = some ("hi".toList) ↔
        ((assocGet maxAgeHeaders ("cache-control".toList)).getD [] ≠ "no-store".toList
         ∧ (assocGet maxAgeHeaders ("cache-control".toList)).getD [] ≠ [])) :=
  ⟨c4_cache_policy_amended.2 gzUnused cachedState [.timeout] [] 0 ("hi".toList) (by rfl),
   c4_cache_policy_amended.1 gzUnused exampleState [.chunk (strBytes "hi")] maxAgeHeaders 2
     ("hi".toList) cachedState [] (by rfl) (by rfl)⟩

/-- C5: a send whose first write succeeds performs no reconnect; a first
write that raises a broken or reset connection triggers exactly one
reconnect and the request proceeds when the retry write succeeds; a retry
failure surfaces as a ConnectionError after exactly one reconnect; and
the outcome never depends on anything past the two possible writes, so no
further reconnect is ever attempted. -/
theorem c5_send_retry :
    (∀ sends i, sends i = .ok → send_request sends i = (0, .ok (i + 1)))
    ∧ (∀ sends i, sends i ≠ .ok → sends (i + 1) = .ok →
        send_request sends i = (1, .ok (i + 2)))
    ∧ (∀ sends i, sends i ≠ .ok → sends (i + 1) ≠ .ok →
        send_request sends i = (1, .error .connectionError))
    ∧ (∀ sends sends' i, sends i = sends' i → sends (i + 1) = sends' (i + 1) →
        send_request sends i = send_request sends' i) := by
  refine ⟨?_, ?_, ?_, ?_⟩
  · intro sends i h
    unfold send_request
    rw [h]
  · intro sends i h1 h2
    unfold send_request
    rw [h2]
    cases hh : sends i with
    | ok => exact absurd hh h1
    | brokenPipe => rfl
    | connectionReset => rfl
  · intro sends i h1 h2
    unfold send_request
    cases hh : sends i with
    | ok => exact absurd hh h1
    | brokenPipe =>
      cases hh2 : sends (i + 1) with
      | ok => exact absurd hh2 h2
      | brokenPipe => rfl
      | connectionReset => rfl
    | connectionReset =>
      cases hh2 : sends (i + 1) with
      | ok => exact absurd hh2 h2
      | brokenPipe => rfl
      | connectionReset => rfl
  · intro sends sends' i h1 h2
    unfold send_request
    rw [h1, h2]

/-- Send oracle whose first write breaks and whose retry succeeds. -/
def brokenThenOk : Nat → SendOutcome :=
  fun j => if j = 0 then .brokenPipe else .ok

/-- Send oracle whose writes always fail with a reset connection. -/
def alwaysBroken : Nat → SendOutcome :=
  fun _ => .connectionReset

/-- Witness for C5: one reconnect then success, and one reconnect then a
fatal ConnectionError, on concrete send oracles. -/
theorem c5_witness :
    send_request brokenThenOk 0 = (1, .ok 2)
    ∧ send_request alwaysBroken 0 = (1, .error .connectionError) :=
  ⟨c5_send_retry.2.1 brokenThenOk 0 (by decide) (by decide),
   c5_send_retry.2.2.1 alwaysBroken 0 (by decide) (by decide)⟩

/-- Gzip oracle behaving like CPython on a payload with a valid gzip
header but a corrupt deflate stream: the raised zlib.error is not a
BadGzipFile, so the source does not catch it. -/
def gzCorrupt : List Nat → GzipResult := fun _ => .otherFailure

/-- Gzip oracle behaving like CPython on a valid payload compressing the
text hello. -/
def gzHello : List Nat → GzipResult := fun _ => .ok (strBytes "hello")

/-- A fourteen byte payload opening with the gzip magic and a deflate
method byte but continuing with garbage; CPython raises zlib.error, not
BadGzipFile, when decompressing it. -/
def corruptGzipBytes : List Nat := [31, 139, 8, 0, 0, 0, 0, 0, 0, 3, 65, 66, 67, 68]

/-- Header block declaring a gzip content encoding. -/
def gzipHeaders : List (List Char × List Char) :=
  [("content-length".toList, "14".toList), ("content-encoding".toList, "gzip".toList)]

/-- C6 counterexample: an invalid gzip payload whose decompression
failure is not a BadGzipFile escapes the handler and aborts the body
decode, so not every invalid payload degrades to the raw bytes. -/
theorem c6_counterexample :
    read_response_body gzCorrupt exampleState [.chunk corruptGzipBytes] gzipHeaders 14
      = .error .gzipFailure := by rfl

/-- C6 amended: under a gzip content encoding a successful decompression
yields the decompressed text, a BadGzipFile failure degrades to the raw
still-compressed bytes without aborting, but any other decompression
failure, such as the zlib.error CPython raises on a corrupt deflate
stream, propagates and aborts the request. -/
theorem c6_gzip_amended :
    ∀ gz st stream hs n,
      assocGet st.cache (st.scheme ++ st.host ++ st.path) = none →
      assocGet hs ("transfer-encoding".toList) ≠ some ("chunked".toList) →
      assocGet hs ("content-encoding".toList) = some ("gzip".toList) →
      ((∀ out, gz (readFixed n stream []).1 = .ok out →
         ∃ st', read_response_body gz st stream hs n
           = .ok (utf8Decode out, st', (readFixed n stream []).2))
       ∧ (gz (readFixed n stream []).1 = .badGzipFile →
         ∃ st', read_response_body gz st stream hs n
           = .ok (utf8Decode (readFixed n stream []).1, st', (readFixed n stream []).2))
       ∧ (gz (readFixed n stream []).1 = .otherFailure →
         read_response_body gz st stream hs n = .error .gzipFailure)) := by
  intro gz st stream hs n hc hte hce
  rcases hrf : readFixed n stream [] with ⟨raw, s2⟩
  refine ⟨?_, ?_, ?_⟩
  · intro out hgz
    refine ⟨(if (assocGet hs ("cache-control".toList)).getD [] ≠ "no-store".toList
          ∧ (assocGet hs ("cache-control".toList)).getD [] ≠ [] then
        { st with cache := assocPut st.cache (st.scheme ++ st.host ++ st.path)
                   (utf8Decode out) } else st), ?_⟩
    unfold read_response_body
    simp only [hc, if_neg hte, hrf, if_pos hce, hgz]
  · intro hgz
    refine ⟨(if (assocGet hs ("cache-control".toList)).getD [] ≠ "no-store".toList
          ∧ (assocGet hs ("cache-control".toList)).getD [] ≠ [] then
        { st with cache := assocPut st.cache (st.scheme ++ st.host ++ st.path)
                   (utf8Decode raw) } else st), ?_⟩
    unfold read_response_body
    simp only [hc, if_neg hte, hrf, if_pos hce, hgz]
  · intro hgz
    unfold read_response_body
    simp only [hc, if_neg hte, hrf, if_pos hce, hgz]

/-- Witness for C6 amended: the three oracle outcomes applied to the same
concrete response. -/
theorem c6_witness :
    (∃ st', read_response_body gzHello exampleState [.chunk corruptGzipBytes] gzipHeaders 14
       = .ok (utf8Decode (strBytes "hello"), st',
              (readFixed 14 [.chunk corruptGzipBytes] []).2))
    ∧ (∃ st', read_response_body gzUnused exampleState [.chunk corruptGzipBytes] gzipHeaders 14
       = .ok (utf8Decode (readFixed 14 [.chunk corruptGzipBytes] []).1, st',
              (readFixed 14 [.chunk corruptGzipBytes] []).2))
    ∧ read_response_body gzCorrupt exampleState [.chunk corruptGzipBytes] gzipHeaders 14
       = .error .gzipFailure :=
  ⟨(c6_gzip_amended gzHello exampleState [.chunk corruptGzipBytes] gzipHeaders 14
      (by rfl) (by decide) (by rfl)).1 (strBytes "hello") (by rfl),
   (c6_gzip_amended gzUnused exampleState [.chunk corruptGzipBytes] gzipHeaders 14
      (by rfl) (by decide) (by rfl)).2.1 (by rfl),
   (c6_gzip_amended gzCorrupt exampleState [.chunk corruptGzipBytes] gzipHeaders 14
      (by rfl) (by decide) (by rfl)).2.2 (by rfl)⟩

/-- Fixed-length reading stops at a raised timeout and keeps the bytes
collected so far. -/
theorem readFixed_stop_timeout (n : Nat) (acc : List Nat) (rest : List ReadEv)
    (h : acc.length < n) : readFixed n (.timeout :: rest) acc = (acc, rest) := by
  unfold readFixed
  rw [if_neg (by omega)]

/-- Fixed-length reading stops when the transport is exhausted and keeps
the bytes collected so far. -/
theorem readFixed_stop_eof (n : Nat) (acc : List Nat) (h : acc.length < n) :
    readFixed n [] acc = (acc, []) := by
  unfold readFixed
  rw [if_neg (by omega)]

/-- Fixed-length reading stops on an empty read, meaning the peer closed
the connection, and keeps the bytes collected so far. -/
theorem readFixed_empty_chunk (n : Nat) (acc : List Nat) (rest : List ReadEv)
    (h : acc.length < n) : readFixed n (.chunk [] :: rest) acc = (acc, rest) := by
  unfold readFixed
  rw [if_neg (by omega)]
  simp

/-- Fixed-length reading consumes a whole data chunk that still fits and
keeps looping. -/
theorem readFixed_take_chunk (n : Nat) (bs acc : List Nat) (rest : List ReadEv)
    (hne : bs ≠ []) (h : acc.length + bs.length ≤ n) :
    readFixed n (.chunk bs :: rest) acc = readFixed n rest (acc ++ bs) := by
  have hbs : 0 < bs.length := List.length_pos.mpr hne
  conv_lhs => unfold readFixed
  rw [if_neg (by omega)]
  have h0 : ¬(bs.length = 0) := by omega
  have h1 : bs.length ≤ n - acc.length := by omega
  simp only [if_neg h0, if_pos h1]

/-- Transport stream whose chunk size line is not hexadecimal. -/
def badChunkStream : List ReadEv := [.chunk (strBytes "zz\r\n")]

/-- Header block declaring chunked transfer encoding. -/
def chunkedHeaders : List (List Char × List Char) :=
  [("transfer-encoding".toList, "chunked".toList)]

/-- C7 counterexample: a chunked body whose size line is not hexadecimal
makes the int conversion raise ValueError, which nothing in the body
decoding path catches, so the request aborts instead of degrading. -/
theorem c7_counterexample :
    read_response_body gzUnused exampleState badChunkStream chunkedHeaders 0
      = .error .valueError := by rfl

/-- C7 amended: body decoding never aborts when the framing is
fixed-length and no gzip encoding is in play, whatever the transport
delivers; but in chunked mode a malformed chunk-size line raises
ValueError and aborts the request, and a non-BadGzipFile decompression
failure likewise aborts. -/
theorem c7_degrade_amended :
    (∀ gz st stream hs n,
      assocGet hs ("transfer-encoding".toList) ≠ some ("chunked".toList) →
      assocGet hs ("content-encoding".toList) ≠ some ("gzip".toList) →
      ∃ body st' s', read_response_body gz st stream hs n = .ok (body, st', s'))
    ∧ read_response_body gzUnused exampleState badChunkStream chunkedHeaders 0
        = .error .valueError := by
  constructor
  · intro gz st stream hs n hte hce
    cases hc : assocGet st.cache (st.scheme ++ st.host ++ st.path) with
    | some cached =>
      refine ⟨cached, st, stream, ?_⟩
      unfold read_response_body
      simp only [hc]
    | none =>
      rcases hrf : readFixed n stream [] with ⟨raw, s2⟩
      refine ⟨utf8Decode raw,
        (if (assocGet hs ("cache-control".toList)).getD [] ≠ "no-store".toList
            ∧ (assocGet hs ("cache-control".toList)).getD [] ≠ [] then
          { st with cache := assocPut st.cache (st.scheme ++ st.host ++ st.path)
                     (utf8Decode raw) } else st), s2, ?_⟩
      unfold read_response_body
      simp only [hc, if_neg hte, hrf, if_neg hce]
  · rfl

/-- Witness for C7 amended: a fixed-length decode over a transport that
immediately times out still returns a body. -/
theorem c7_witness :
    ∃ body st' s', read_response_body gzUnused exampleState [.timeout] [] 0
      = .ok (body, st', s') :=
  c7_degrade_amended.1 gzUnused exampleState [.timeout] [] 0
    (by decide) (by decide)

/-- C8: when fewer bytes than the content length arrive and the next read
raises a timeout, or the transport ends because the peer closed, the
fixed-length decode stops the loop and returns the partial bytes decoded
to text, with the state unchanged, instead of failing the request. -/
theorem c8_partial_body :
    ∀ gz st bs n hs,
      assocGet st.cache (st.scheme ++ st.host ++ st.path) = none →
      assocGet hs ("transfer-encoding".toList) = none →
      assocGet hs ("content-encoding".toList) = none →
      assocGet hs ("cache-control".toList) = none →
      bs.length < n →
      read_response_body gz st [.chunk bs, .timeout] hs n
        = .ok (utf8Decode bs, st, if bs = [] then [.timeout] else [])
      ∧ read_response_body gz st [.chunk bs] hs n = .ok (utf8Decode bs, st, []) := by
  intro gz st bs n hs hc hte hce hcc hlen
  have hten : assocGet hs ("transfer-encoding".toList) ≠ some ("chunked".toList) := by
    rw [hte]
    exact fun hcon => Option.noConfusion hcon
  have hcen : assocGet hs ("content-encoding".toList) ≠ some ("gzip".toList) := by
    rw [hce]
    exact fun hcon => Option.noConfusion hcon
  have hccn : ¬((assocGet hs ("cache-control".toList)).getD [] ≠ "no-store".toList
      ∧ (assocGet hs ("cache-control".toList)).getD [] ≠ []) := by
    rw [hcc]
    exact fun hcon => hcon.2 rfl
  have hrf1 : readFixed n [.chunk bs, .timeout] []
      = (bs, if bs = [] then [.timeout] else []) := by
    by_cases hbs : bs = []
    · subst hbs
      rw [readFixed_empty_chunk n [] [.timeout] (by simpa using hlen)]
      simp
    · rw [readFixed_take_chunk n bs [] [.timeout] hbs (by simpa using le_of_lt hlen),
        List.nil_append, readFixed_stop_timeout n bs [] hlen]
      simp [hbs]
  have hrf2 : readFixed n [.chunk bs] [] = (bs, []) := by
    by_cases hbs : bs = []
    · subst hbs
      rw [readFixed_empty_chunk n [] [] (by simpa using hlen)]
    · rw [readFixed_take_chunk n bs [] [] hbs (by simpa using le_of_lt hlen),
        List.nil_append, readFixed_stop_eof n bs hlen]
  constructor
  · unfold read_response_body
    simp only [hc, if_neg hten, hrf1, if_neg hcen, if_neg hccn]
  · unfold read_response_body
    simp only [hc, if_neg hten, hrf2, if_neg hcen, if_neg hccn]

/-- Witness for C8: a transport delivering three of eleven promised bytes
and then timing out, or three bytes and then a close, yields the decoded
three byte partial body. -/
theorem c8_witness :
    read_response_body gzUnused exampleState [.chunk (strBytes "abc"), .timeout] [] 11
      = .ok ("abc".toList, exampleState,
             if strBytes "abc" = [] then [.timeout] else [])
    ∧ read_response_body gzUnused exampleState [.chunk (strBytes "abc")] [] 11
      = .ok ("abc".toList, exampleState, []) :=
  c8_partial_body gzUnused exampleState (strBytes "abc") 11 []
    (by rfl) (by rfl) (by rfl) (by rfl) (by decide)

/-- Every accepted URL leaves the constructor with a hop counter of
zero. -/
theorem url_init_counts_zero (url : List Char) (st : URLState)
    (h : url_init url = .ok st) : st.redirect_counts = 0 := by
  unfold url_init at h
  split at h
  · exact absurd h (by simp)
  · split at h
    · split at h
      · split at h
        · split at h
          · injection h with h'
            subst h'
            rfl
          · exact absurd h (by simp)
        · injection h with h'
          subst h'
          rfl
      · split at h
        · injection h with h'
          subst h'
          rfl
        · injection h with h'
          subst h'
          rfl
    · exact absurd h (by simp)

/-- The redirect step never decreases the hop counter. -/
theorem hrs_counts_mono (st : URLState) (hs : List (List Char × List Char)) :
    st.redirect_counts ≤ (handle_redirect_state st hs).1.redirect_counts := by
  cases h : assocGet hs ("location".toList) with
  | none =>
    unfold handle_redirect_state
    simp only [h]
    exact Nat.le.refl
  | some loc =>
    by_cases hne : loc = []
    · unfold handle_redirect_state
      simp only [h, if_pos hne]
      exact Nat.le.refl
    · cases habs : splitOnce ("://".toList) loc with
      | none =>
        rw [hrs_relative st hs loc h hne habs]
        exact Nat.le_succ _
      | some p =>
        rw [hrs_absolute st hs loc p.1 p.2 h hne (by rw [habs])]
        exact Nat.le_succ _

/-- A whole scripted session never decreases the hop counter either:
nothing in the request path ever resets it. -/
theorem request_url_counts_mono (gz : List Nat → GzipResult) :
    ∀ (script : List ScriptedResponse) (st : URLState),
      st.redirect_counts ≤ (request_url gz script st).1.redirect_counts := by
  intro script
  induction script with
  | nil =>
    intro st
    exact Nat.le.refl
  | cons resp rest ih =>
    intro st
    unfold request_url
    split
    · split
      · exact Nat.le.refl
      · split
        · next body st' s hrrb =>
          have hfld := (rrb_fields gz st resp.stream resp.headers _ body st' s hrrb).2.2.2.2.2
          simp [hfld]
        · exact Nat.le.refl
    · split
      · split
        · next st' heq =>
          have h1 := hrs_counts_mono st resp.headers
          rw [heq] at h1
          exact le_trans h1 (ih st')
        · next st' e heq =>
          have h1 := hrs_counts_mono st resp.headers
          rw [heq] at h1
          exact h1
      · exact Nat.le.refl

/-- State of the example URL after five redirects have already been
followed. -/
def fiveState : URLState := { exampleState with redirect_counts := 5 }

/-- C9: the constructor is the only place the hop counter is set to zero
and every later operation leaves it equal or incremented, never reset:
the redirect step and whole sessions are monotone in it and body decoding
preserves it; consequently an instance that has already followed five
redirects raises TooManyRedirects on the first redirect of any later
request. -/
theorem c9_counter_monotonic :
    (∀ url st, url_init url = .ok st → st.redirect_counts = 0)
    ∧ (∀ st hs, st.redirect_counts ≤ (handle_redirect_state st hs).1.redirect_counts)
    ∧ (∀ gz st stream hs n body st' s',
        read_response_body gz st stream hs n = .ok (body, st', s') →
        st'.redirect_counts = st.redirect_counts)
    ∧ (∀ gz script st, st.redirect_counts ≤ (request_url gz script st).1.redirect_counts)
    ∧ (∀ gz st resp rest loc,
        st.redirect_counts = 5 →
        resp.status.head? = some '3' →
        assocGet resp.headers ("location".toList) = some loc → loc ≠ [] →
        (request_url gz (resp :: rest) st).2 = .error .tooManyRedirects) := by
  refine ⟨url_init_counts_zero, hrs_counts_mono, ?_, ?_, ?_⟩
  · intro gz st stream hs n body st' s' h
    exact (rrb_fields gz st stream hs n body st' s' h).2.2.2.2.2
  · intro gz script st
    exact request_url_counts_mono gz script st
  · intro gz st resp rest loc h5 hst3 hloc hne
    have hne2 : ¬(resp.status.head? = some '2') := by
      rw [hst3]
      simp
    unfold request_url
    rw [if_neg hne2, if_pos hst3]
    cases habs : splitOnce ("://".toList) loc with
    | none =>
      rw [hrs_relative st resp.headers loc hloc hne habs, h5]
      rfl
    | some p =>
      rw [hrs_absolute st resp.headers loc p.1 p.2 hloc hne (by rw [habs]), h5]
      rfl

/-- Witness for C9: a state that already followed five redirects fails on
the very first redirect of a fresh request, and the constructor output
for a concrete URL starts at zero. -/
theorem c9_witness :
    fiveState.redirect_counts = 5
    ∧ (request_url gzUnused [redirectResponse "/r"] fiveState).2
        = .error .tooManyRedirects
    ∧ exampleState.redirect_counts = 0 :=
  ⟨rfl,
   c9_counter_monotonic.2.2.2.2 gzUnused fiveState (redirectResponse "/r") []
     ("/r".toList) rfl rfl (by rfl) (by decide),
   c9_counter_monotonic.1 ("http://example.com".toList) exampleState (by rfl)⟩

/-- C10: whenever the redirect step ends in TooManyRedirects the returned
state has already been mutated: its hop counter is incremented and its
path, and for an absolute Location also its scheme and host, already hold
the redirect target, so the failure is not atomic; and concretely a state
at five hops redirected to /next fails with its path overwritten. -/
theorem c10_mutation_before_check :
    (∀ st hs st', handle_redirect_state st hs = (st', some .tooManyRedirects) →
      st'.redirect_counts = st.redirect_counts + 1
      ∧ ∃ loc, assocGet hs ("location".toList) = some loc ∧ loc ≠ []
          ∧ ((splitOnce ("://".toList) loc = none ∧ st'.path = loc)
             ∨ (∃ sch rest, splitOnce ("://".toList) loc = some (sch, rest)
                 ∧ st'.scheme = sch ∧ st'.host = (hostPathSplit rest).1
                 ∧ st'.path = '/' :: (hostPathSplit rest).2)))
    ∧ handle_redirect_state fiveState [("location".toList, "/next".toList)]
        = ({ fiveState with path := "/next".toList, redirect_counts := 6 },
           some .tooManyRedirects) := by
  constructor
  · intro st hs st' h
    cases hloc : assocGet hs ("location".toList) with
    | none =>
      unfold handle_redirect_state at h
      rw [hloc] at h
      exact absurd h (by simp)
    | some loc =>
      by_cases hne : loc = []
      · unfold handle_redirect_state at h
        rw [hloc] at h
        simp only [if_pos hne] at h
        exact absurd h (by simp)
      · cases habs : splitOnce ("://".toList) loc with
        | none =>
          rw [hrs_relative st hs loc hloc hne habs] at h
          split at h
          · simp only [Prod.mk.injEq] at h
            obtain ⟨h1, -⟩ := h
            subst h1
            exact ⟨rfl, loc, rfl, hne, Or.inl ⟨habs, rfl⟩⟩
          · exact absurd h (by simp)
        | some p =>
          rw [hrs_absolute st hs loc p.1 p.2 hloc hne (by rw [habs])] at h
          split at h
          · simp only [Prod.mk.injEq] at h
            obtain ⟨h1, -⟩ := h
            subst h1
            exact ⟨rfl, loc, rfl, hne, Or.inr ⟨p.1, p.2, by rw [habs], rfl, rfl, rfl⟩⟩
          · exact absurd h (by simp)
  · rfl

/-- Witness for C10: the general statement applied to the concrete failed
redirect of the second conjunct. -/
theorem c10_witness :
    ({ fiveState with path := "/next".toList, redirect_counts := 6 } : URLState).redirect_counts
      = fiveState.redirect_counts + 1 :=
  (c10_mutation_before_check.1 fiveState [("location".toList, "/next".toList)]
    { fiveState with path := "/next".toList, redirect_counts := 6 }
    c10_mutation_before_check.2).1
